import Mathlib

/-!
Verification of the request execution core of the crawl4ai TypeScript SDK
(src/sdk.ts, src/errors.ts): error taxonomy and classification, retry
coordination with exponential backoff and rate-limit override, response
normalization, timeout/abort wiring, and the SSE stream decoder.

JavaScript values and semantics (truthiness, parseInt, property access)
are embedded explicitly so that the Lean definitions mirror the source
line by line.
-/

namespace Crawl4AI

/-- A JSON value, as produced by response.json(); raw text bodies are
embedded as `str`. Numbers are modelled as integers (no claim depends on
fractional values). -/
inductive Json where
  | null : Json
  | bool (b : Bool) : Json
  | num (n : Int) : Json
  | str (s : String) : Json
  | arr (xs : List Json) : Json
  | obj (fields : List (String × Json)) : Json

/-- A JavaScript number that may be NaN (the result of parseInt on a
non-numeric string). -/
inductive JsNum where
  | num (i : Int) : JsNum
  | nan : JsNum
deriving DecidableEq, Repr

/-- JavaScript truthiness of an optional number field: undefined, 0 and
NaN are falsy. -/
def jsTruthyNum : Option JsNum → Bool
  | some (JsNum.num i) => i != 0
  | some JsNum.nan => false
  | none => false

/-- JavaScript truthiness of a JSON value: null, false, 0 and the empty
string are falsy; every array and object is truthy. -/
def Json.jsTruthy : Json → Bool
  | .null => false
  | .bool b => b
  | .num n => n != 0
  | .str s => s != ""
  | .arr _ => true
  | .obj _ => true

/-- Array.isArray. -/
def Json.isArr : Json → Bool
  | .arr _ => true
  | _ => false

def isSpaceChar (c : Char) : Bool :=
  c = ' ' || c = '\t' || c = '\n' || c = '\r'

def isDigitChar (c : Char) : Bool :=
  '0' ≤ c && c ≤ '9'

def digitsVal : List Char → Nat → Nat
  | [], acc => acc
  | c :: cs, acc => digitsVal cs (acc * 10 + (c.toNat - '0'.toNat))

/-- JavaScript parseInt(s, 10): skip leading whitespace, optional sign,
then the longest prefix of decimal digits; NaN when no digit is found. -/
def jsParseInt (s : String) : JsNum :=
  let cs := (s.data).dropWhile isSpaceChar
  let (neg, cs) : Bool × List Char :=
    match cs with
    | '-' :: rest => (true, rest)
    | '+' :: rest => (false, rest)
    | rest => (false, rest)
  let digits := cs.takeWhile isDigitChar
  if digits.isEmpty then JsNum.nan
  else JsNum.num (if neg then -(digitsVal digits 0 : Int) else (digitsVal digits 0 : Int))

/-- Lookup of a response header by (lower-case) name in the plain mapping
built from response.headers. -/
def lookupHeader (headers : List (String × String)) (key : String) : Option String :=
  (headers.find? (fun p => p.1 = key)).map (·.2)

/-- The truthiness-guarded header parse `headers?.[k] ? parseInt(headers[k], 10)
: undefined` used by createHttpError and the RateLimitError constructor
(an empty header string is falsy, hence undefined). -/
def parseNumHeader (headers : List (String × String)) (key : String) : Option JsNum :=
  match lookupHeader headers key with
  | some v => if v != "" then some (jsParseInt v) else none
  | none => none

/-- The error classes of src/errors.ts, as a closed taxonomy. `generic` is
the base Crawl4AIError used directly; `nonClassified` stands for any thrown
value that is not an instance of Crawl4AIError (e.g. a plain programming
error). The mutable `request` diagnostic field is not modelled (no claim
depends on it). -/
inductive SdkError where
  | generic (message : String) (status : Option Int) (statusText : Option String)
      (data : Option Json) : SdkError
  | network (message : String) : SdkError
  | timeout (timeoutMs : Int) (url : Option String) : SdkError
  | validation (message : String) (field : Option String) : SdkError
  | rateLimit (message : String) (retryAfter : Option JsNum)
      (limit remaining : Option JsNum) : SdkError
  | auth (message : String) (status : Int) : SdkError
  | server (message : String) (status : Int) (statusText : String) : SdkError
  | notFound (resource : Option String) : SdkError
  | parseFail (message : String) : SdkError
  | nonClassified (message : String) : SdkError

/-- The kind (most specific class name) of an error. -/
inductive ErrKind where
  | generic | network | timeout | validation | rateLimit
  | auth | server | notFound | parseFail | nonClassified
deriving DecidableEq, Repr

def kindOf : SdkError → ErrKind
  | .generic _ _ _ _ => .generic
  | .network _ => .network
  | .timeout _ _ => .timeout
  | .validation _ _ => .validation
  | .rateLimit _ _ _ _ => .rateLimit
  | .auth _ _ => .auth
  | .server _ _ _ => .server
  | .notFound _ => .notFound
  | .parseFail _ => .parseFail
  | .nonClassified _ => .nonClassified

/-- The `status` field each class sets via its super(...) call:
RequestValidationError → 400, RateLimitError → 429, AuthError → its status,
ServerError → its status, NotFoundError → 404; NetworkError, TimeoutError
and ParseError leave it undefined. -/
def errStatus : SdkError → Option Int
  | .generic _ s _ _ => s
  | .network _ => none
  | .timeout _ _ => none
  | .validation _ _ => some 400
  | .rateLimit _ _ _ _ => some 429
  | .auth _ s => some s
  | .server _ s _ => some s
  | .notFound _ => some 404
  | .parseFail _ => none
  | .nonClassified _ => none

/-- instanceof Crawl4AIError. -/
def isCrawl4AIErr : SdkError → Bool
  | .nonClassified _ => false
  | _ => true

/-- The retry-after seconds of a RateLimitError, when defined. -/
def retryAfterOf : SdkError → Option JsNum
  | .rateLimit _ r _ _ => r
  | _ => none

/-- The timeout value carried by a TimeoutError. -/
def timeoutValueOf : SdkError → Option Int
  | .timeout t _ => some t
  | _ => none

-- Constants of src/sdk.ts.
def CLIENT_ERROR_MIN : Int := 400
def CLIENT_ERROR_MAX : Int := 500
def RATE_LIMIT_STATUS : Int := 429
def RETRY_BACKOFF_MULTIPLIER : Nat := 2

/-- createHttpError of src/errors.ts: maps a status code (plus status
text, optional message, body and response headers) to one classified
error. The 404 branch constructs NotFoundError() discarding the message;
the 429 branch parses retry-after and the x-ratelimit quota headers
(their Date conversion for reset is not modelled); statuses 500, 502,
503 and 504 construct ServerError; every other status constructs the
base Crawl4AIError with status, status text and body. -/
def httpErrorMessage (status : Int) (statusText : String) (message : Option String) : String :=
  match message with
  | some m => if m != "" then m else "HTTP " ++ toString status ++ ": " ++ statusText
  | none => "HTTP " ++ toString status ++ ": " ++ statusText

def createHttpError (status : Int) (statusText : String) (message : Option String)
    (data : Option Json) (headers : List (String × String)) : SdkError :=
  let errorMessage := httpErrorMessage status statusText message
  if status = 400 then SdkError.validation errorMessage none
  else if status = 401 then SdkError.auth errorMessage 401
  else if status = 403 then SdkError.auth errorMessage 403
  else if status = 404 then SdkError.notFound none
  else if status = 429 then
    SdkError.rateLimit errorMessage (parseNumHeader headers "retry-after")
      (parseNumHeader headers "x-ratelimit-limit")
      (parseNumHeader headers "x-ratelimit-remaining")
  else if status = 500 || status = 502 || status = 503 || status = 504 then
    SdkError.server errorMessage status statusText
  else
    SdkError.generic errorMessage (some status) (some statusText) data

-- ===== Response Normalizer (src/sdk.ts) =====

/-- Presence of a string key on an object, as the JavaScript `in`
operator observes it on a plain object literal. -/
def hasKey (fields : List (String × Json)) (k : String) : Bool :=
  (fields.find? (fun p => p.1 = k)).isSome

/-- Property access v[k]: the value when the key is present, undefined
(none) otherwise; only objects carry string properties in this model. -/
def propOf (v : Json) (k : String) : Option Json :=
  match v with
  | .obj fields => (fields.find? (fun p => p.1 = k)).map (·.2)
  | _ => none

/-- isApiArrayResponse: typeof value is object, value is not null, and
the value has a results or result property. Arrays and primitives never
carry those keys in this model, so only objects qualify. -/
def isApiArrayResponse : Json → Bool
  | .obj fields => hasKey fields "results" || hasKey fields "result"
  | _ => false

/-- The guarded property read `response.k && Array.isArray(response.k)`:
the property value when it is present, truthy and an array. -/
def truthyArrayProp (v : Json) (k : String) : Option Json :=
  match propOf v k with
  | some r => if r.jsTruthy && r.isArr then some r else none
  | none => none

/-- normalizeArrayResponse of src/sdk.ts, translated branch by branch. -/
def normalizeArrayResponse (response : Json) : Json :=
  if response.isArr then response
  else if isApiArrayResponse response then
    match truthyArrayProp response "results" with
    | some r => r
    | none =>
      match truthyArrayProp response "result" with
      | some r => r
      | none => Json.arr [response]
  else Json.arr [response]

/-- The normalization rule as the spec words it (section 4.5): value
already an array → as-is; object whose results property is an array →
that array; object whose result property is an array → that array;
otherwise wrap in a one-element array. -/
def specNormalize (v : Json) : Json :=
  match v with
  | .arr _ => v
  | .obj fields =>
    match (fields.find? (fun p => p.1 = "results")).map (·.2) with
    | some (Json.arr xs) => Json.arr xs
    | _ =>
      match (fields.find? (fun p => p.1 = "result")).map (·.2) with
      | some (Json.arr xs) => Json.arr xs
      | _ => Json.arr [v]
  | _ => Json.arr [v]

-- ===== Transport Executor: status validation and throw toggle =====

/-- The default status-validation predicate: status < CLIENT_ERROR_MIN. -/
def defaultValidateStatus (status : Int) : Bool :=
  status < CLIENT_ERROR_MIN

/-- What request() hands back to its caller on the non-throwing path: the
decoded body, or (per the spec's reading) the classified error object in
place of a success value. -/
inductive RequestReturn where
  | value (v : Json) : RequestReturn
  | errObj (e : SdkError) : RequestReturn

/-- The tail of request() in src/sdk.ts after the body is decoded: when
the status fails the validateStatus predicate, the classified error is
built via createHttpError; it is thrown when throwOnError is set, and
otherwise control falls through to `return responseData`. -/
def handleResponse (validateStatus : Int → Bool) (throwOnError : Bool)
    (status : Int) (statusText : String) (headers : List (String × String))
    (responseData : Json) : Except SdkError RequestReturn :=
  if !(validateStatus status) then
    let error := createHttpError status statusText none (some responseData) headers
    if throwOnError then Except.error error
    else Except.ok (RequestReturn.value responseData)
  else Except.ok (RequestReturn.value responseData)

-- ===== Transport Executor: timeout/abort wiring =====

/-- The two AbortSignals in scope inside request(): the signal of the
internally created AbortController, and the caller-supplied signal. -/
inductive Sig where
  | internal : Sig
  | external : Sig
deriving DecidableEq

/-- `const requestSignal = signal || controller.signal`. -/
def requestSignalUsed (hasExternalSignal : Bool) : Sig :=
  if hasExternalSignal then Sig.external else Sig.internal

/-- The deadline timer `setTimeout(() => controller.abort(), timeout)`
always aborts the internal controller. -/
def deadlineAbortTarget : Sig := Sig.internal

/-- fetch is aborted exactly when the signal passed to it has fired. -/
def fetchAborted (hasExternalSignal : Bool) (fired : Sig → Bool) : Bool :=
  fired (requestSignalUsed hasExternalSignal)

/-- The firing pattern in which only the deadline timer has gone off. -/
def onlyDeadlineFired : Sig → Bool :=
  fun s => s = deadlineAbortTarget

/-- A value caught by the catch block of request(): either an already
classified error thrown inside the try, or a raw JavaScript exception
with its name, message and whether it is a TypeError. -/
inductive Caught where
  | sdkErr (e : SdkError) : Caught
  | jsException (name : String) (message : String) (isTypeError : Bool) : Caught

/-- The error.name seen by the catch block; classified errors carry their
class name, never AbortError. -/
def caughtName : Caught → String
  | .sdkErr (.generic _ _ _ _) => "Crawl4AIError"
  | .sdkErr (.network _) => "NetworkError"
  | .sdkErr (.timeout _ _) => "TimeoutError"
  | .sdkErr (.validation _ _) => "RequestValidationError"
  | .sdkErr (.rateLimit _ _ _ _) => "RateLimitError"
  | .sdkErr (.auth _ _) => "AuthError"
  | .sdkErr (.server _ _ _) => "ServerError"
  | .sdkErr (.notFound _) => "NotFoundError"
  | .sdkErr (.parseFail _) => "ParseError"
  | .sdkErr (.nonClassified _) => "Error"
  | .jsException name _ _ => name

def caughtMessage : Caught → String
  | .sdkErr _ => ""
  | .jsException _ msg _ => msg

def caughtIsTypeError : Caught → Bool
  | .sdkErr _ => false
  | .jsException _ _ b => b

def listStartsWith : List Char → List Char → Bool
  | _, [] => true
  | [], _ :: _ => false
  | a :: as, b :: bs => a = b && listStartsWith as bs

def listHasSubstr : List Char → List Char → Bool
  | [], needle => needle.isEmpty
  | hay@(_ :: t), needle => listStartsWith hay needle || listHasSubstr t needle

/-- The catch block of request(): an AbortError becomes a TimeoutError
carrying the effective timeout and the resolved URL; a TypeError whose
message mentions fetch becomes a NetworkError; everything else is
rethrown unchanged. -/
def classifyCatch (timeoutMs : Int) (url : String) (c : Caught) : Caught :=
  if caughtName c = "AbortError" then
    Caught.sdkErr (SdkError.timeout timeoutMs (some url))
  else if caughtIsTypeError c && listHasSubstr (caughtMessage c).data "fetch".data then
    Caught.sdkErr (SdkError.network ("Network request failed: " ++ caughtMessage c))
  else c

/-- The DOMException produced by an aborted fetch. -/
def abortException : Caught :=
  Caught.jsException "AbortError" "The operation was aborted." false

-- ===== Retry Coordinator (requestWithRetry of src/sdk.ts) =====

/-- The immediate-rethrow test of the retry loop: the caught error is an
instance of Crawl4AIError, its status field is truthy, and the status is
a 4xx other than 429. -/
def noRetry (e : SdkError) : Bool :=
  isCrawl4AIErr e &&
    match errStatus e with
    | some s => s != 0 && CLIENT_ERROR_MIN ≤ s && s < CLIENT_ERROR_MAX
        && s != RATE_LIMIT_STATUS
    | none => false

/-- The delay computation before the next attempt: retryDelay multiplied
by 2 to the attempt power, overridden to retryAfter seconds times 1000
when the error is a RateLimitError whose retryAfter field is truthy. -/
def delayFor (retryDelay : Nat) (attempt : Nat) (e : SdkError) : Int :=
  let fallback : Int := (retryDelay : Int) * (RETRY_BACKOFF_MULTIPLIER : Int) ^ attempt
  match e with
  | .rateLimit _ retryAfter _ _ =>
    if jsTruthyNum retryAfter then
      match retryAfter with
      | some (JsNum.num r) => r * 1000
      | _ => fallback
    else fallback
  | _ => fallback

/-- The observable trace of one requestWithRetry call: how many attempts
were issued, the backoff delays slept in order, and the final result. -/
structure RetryTrace (α : Type) where
  attempts : Nat
  sleeps : List Int
  result : Except SdkError α

/-- One iteration of the retry loop from a given attempt index, with
enough fuel for the remaining iterations (the loop guard attempt ≤
retries corresponds to fuel = retries + 1 - attempt). On success the
value is returned at once; on a caught error the 4xx short-circuit
rethrows, and otherwise the loop sleeps and proceeds while attempts
remain, rethrowing the last observed error when they run out. -/
def requestWithRetryGo (retries retryDelay : Nat) (outcomes : Nat → Except SdkError α) :
    Nat → Nat → RetryTrace α
  | _, 0 => ⟨0, [], Except.error (SdkError.nonClassified "No attempts made")⟩
  | attempt, fuel + 1 =>
    match outcomes attempt with
    | Except.ok v => ⟨1, [], Except.ok v⟩
    | Except.error e =>
      if noRetry e then ⟨1, [], Except.error e⟩
      else if attempt < retries then
        let rest := requestWithRetryGo retries retryDelay outcomes (attempt + 1) fuel
        ⟨rest.attempts + 1, delayFor retryDelay attempt e :: rest.sleeps, rest.result⟩
      else ⟨1, [], Except.error e⟩

/-- requestWithRetry of src/sdk.ts: the loop runs attempt = 0 .. retries,
where `outcomes n` is the result of the n-th call to request(). -/
def requestWithRetry (retries retryDelay : Nat) (outcomes : Nat → Except SdkError α) :
    RetryTrace α :=
  requestWithRetryGo retries retryDelay outcomes 0 (retries + 1)

/-- The exponential backoff schedule: delays retryDelay * 2^0 ..
retryDelay * 2^(n-1). -/
def expSleeps (retryDelay : Nat) (n : Nat) : List Int :=
  (List.range n).map (fun a => (retryDelay : Int) * (RETRY_BACKOFF_MULTIPLIER : Int) ^ a)

-- ===== Stream Decoder =====

/-- Modelled from the spec: one decoded Server-Sent-Event frame (spec
section 3, StreamEvent): optional event name, newline-joined data
payload, optional id, optional retry-interval hint. The decoder itself
is absent from src/ (only its caller, the text/event-stream branch of
request(), is present), so it is modelled from spec section 4.4. -/
structure StreamEvent where
  event : Option (List Char)
  data : List Char
  id : Option (List Char)
  retryHint : Option (List Char)
deriving DecidableEq

/-- Modelled from the spec: parse one non-blank line of a frame. A line
with a leading colon is a comment and contributes nothing; otherwise the
line is split at the first colon into field name and value, one leading
space of the value is stripped, and a line with no colon is a field with
an empty value. -/
def parseField (line : List Char) : Option (List Char × List Char) :=
  match line with
  | ':' :: _ => none
  | _ =>
    let fieldName := line.takeWhile (fun c => c ≠ ':')
    let rest := line.dropWhile (fun c => c ≠ ':')
    let value :=
      match rest with
      | ':' :: ' ' :: v => v
      | ':' :: v => v
      | _ => []
    some (fieldName, value)

/-- Modelled from the spec: the event under construction while the lines
of one frame are processed; data lines are collected in order. -/
structure EvBuilder where
  event : Option (List Char)
  dataLines : List (List Char)
  id : Option (List Char)
  retryHint : Option (List Char)

def emptyBuilder : EvBuilder := ⟨none, [], none, none⟩

/-- Modelled from the spec: dispatch one parsed field into the event
under construction; data fields accumulate, event/id/retry overwrite,
and an unrecognized field name is ignored. -/
def applyField (b : EvBuilder) (f : List Char × List Char) : EvBuilder :=
  if f.1 = "data".data then { b with dataLines := b.dataLines ++ [f.2] }
  else if f.1 = "event".data then { b with event := some f.2 }
  else if f.1 = "id".data then { b with id := some f.2 }
  else if f.1 = "retry".data then { b with retryHint := some f.2 }
  else b

def foldFrameLines (b : EvBuilder) (lines : List (List Char)) : EvBuilder :=
  lines.foldl (fun acc line =>
    match parseField line with
    | some f => applyField acc f
    | none => acc) b

/-- Join with one line break between consecutive pieces. -/
def joinNL : List (List Char) → List Char
  | [] => []
  | [x] => x
  | x :: xs => x ++ '\n' :: joinNL xs

/-- Modelled from the spec: build the StreamEvent of one complete frame
from its lines, joining the data lines with one line break in their
original order. -/
def mkEvent (lines : List (List Char)) : StreamEvent :=
  let b := foldFrameLines emptyBuilder lines
  ⟨b.event, joinNL b.dataLines, b.id, b.retryHint⟩

/-- The values of the data fields of a frame, in order (the reference
point for the data-joining property). -/
def dataValues (lines : List (List Char)) : List (List Char) :=
  ((lines.filterMap parseField).filter (fun f => f.1 = "data".data)).map (·.2)

/-- A line that parses as a field whose name is none of the recognized
ones. -/
def unknownFieldLine (line : List Char) : Bool :=
  match parseField line with
  | some f => f.1 ≠ "data".data && f.1 ≠ "event".data && f.1 ≠ "id".data
      && f.1 ≠ "retry".data
  | none => false

/-- Modelled from the spec: the decoder state, an internal text buffer
holding the partial line after the last line break, the complete lines
of the current (still unterminated) frame, and the events emitted so
far. -/
structure SSEState where
  buffer : List Char
  curLines : List (List Char)
  events : List StreamEvent

def initSSEState : SSEState := ⟨[], [], []⟩

/-- CRLF tolerance: a line break is LF, optionally preceded by CR, so a
completed line drops one trailing carriage return. -/
def stripTrailingCR (l : List Char) : List Char :=
  if l.getLast? = some '\r' then l.dropLast else l

/-- Modelled from the spec: a line break was reached. A blank line
terminates the current frame: when the frame has one or more lines the
completed frame yields one StreamEvent and is removed; a blank line with
no pending lines yields nothing. A non-blank line joins the current
frame. -/
def endLine (st : SSEState) : SSEState :=
  let line := stripTrailingCR st.buffer
  if line.isEmpty then
    if st.curLines.isEmpty then { st with buffer := [] }
    else ⟨[], [], st.events ++ [mkEvent st.curLines]⟩
  else ⟨[], st.curLines ++ [line], st.events⟩

/-- Modelled from the spec: consume one character of the incoming text:
a line feed completes the buffered line, any other character is appended
to the buffer. -/
def feedChar (st : SSEState) (c : Char) : SSEState :=
  if c = '\n' then endLine st
  else { st with buffer := st.buffer ++ [c] }

/-- Modelled from the spec: append one source chunk to the internal
buffer and scan it for complete lines and frames. -/
def feedChunk (st : SSEState) (chunk : List Char) : SSEState :=
  chunk.foldl feedChar st

/-- Modelled from the spec: the sequence of StreamEvents produced by
incrementally decoding a list of source chunks (a trailing incomplete
frame stays buffered and yields nothing). -/
def sseDecodeChunks (chunks : List (List Char)) : List StreamEvent :=
  (chunks.foldl feedChunk initSSEState).events

-- ===== Spec-side reference definitions =====

/-- The status-to-kind mapping table of spec section 4.1, amended to the
statuses the code actually maps to Server (500, 502, 503, 504; other 5xx
statuses fall to the Generic catch-all). -/
def specKind (status : Int) : ErrKind :=
  if status = 400 then ErrKind.validation
  else if status = 401 then ErrKind.auth
  else if status = 403 then ErrKind.auth
  else if status = 404 then ErrKind.notFound
  else if status = 429 then ErrKind.rateLimit
  else if status = 500 || status = 502 || status = 503 || status = 504 then ErrKind.server
  else ErrKind.generic

/-- The known, truthy retry-after value of a RateLimit error: defined and
a number other than zero (undefined, NaN and 0 yield none, in which case
the coordinator falls back to exponential backoff). -/
def rateLimitKnownRetryAfter : SdkError → Option Int
  | .rateLimit _ (some (JsNum.num r)) _ _ => if r = 0 then none else some r
  | _ => none

-- ===== Helper lemmas =====

/-- One-step unfolding of the retry loop body when fuel remains. -/
theorem requestWithRetryGo_succ {α : Type} (retries retryDelay : Nat)
    (outcomes : Nat → Except SdkError α) (attempt fuel : Nat) :
    requestWithRetryGo retries retryDelay outcomes attempt (fuel + 1) =
      match outcomes attempt with
      | Except.ok v => ⟨1, [], Except.ok v⟩
      | Except.error e =>
        if noRetry e then ⟨1, [], Except.error e⟩
        else if attempt < retries then
          let rest := requestWithRetryGo retries retryDelay outcomes (attempt + 1) fuel
          ⟨rest.attempts + 1, delayFor retryDelay attempt e :: rest.sleeps, rest.result⟩
        else ⟨1, [], Except.error e⟩ := rfl

/-- Resolved step: the attempt succeeded. -/
theorem requestWithRetryGo_step_ok {α : Type} {retries retryDelay : Nat}
    {outcomes : Nat → Except SdkError α} {attempt fuel : Nat} {v : α}
    (hout : outcomes attempt = Except.ok v) :
    requestWithRetryGo retries retryDelay outcomes attempt (fuel + 1) =
      ⟨1, [], Except.ok v⟩ := by
  rw [requestWithRetryGo_succ, hout]

/-- Resolved step: the attempt failed on a non-retryable classified 4xx. -/
theorem requestWithRetryGo_step_noretry {α : Type} {retries retryDelay : Nat}
    {outcomes : Nat → Except SdkError α} {attempt fuel : Nat} {e : SdkError}
    (hout : outcomes attempt = Except.error e) (hnr : noRetry e = true) :
    requestWithRetryGo retries retryDelay outcomes attempt (fuel + 1) =
      ⟨1, [], Except.error e⟩ := by
  rw [requestWithRetryGo_succ, hout]
  simp [hnr]

/-- Resolved step: a retryable failure with attempts remaining sleeps the
computed delay and continues. -/
theorem requestWithRetryGo_step_retry {α : Type} {retries retryDelay : Nat}
    {outcomes : Nat → Except SdkError α} {attempt fuel : Nat} {e : SdkError}
    (hout : outcomes attempt = Except.error e) (hnr : noRetry e = false)
    (hlt : attempt < retries) :
    requestWithRetryGo retries retryDelay outcomes attempt (fuel + 1) =
      ⟨(requestWithRetryGo retries retryDelay outcomes (attempt + 1) fuel).attempts + 1,
        delayFor retryDelay attempt e ::
          (requestWithRetryGo retries retryDelay outcomes (attempt + 1) fuel).sleeps,
        (requestWithRetryGo retries retryDelay outcomes (attempt + 1) fuel).result⟩ := by
  rw [requestWithRetryGo_succ, hout]
  simp [hnr, hlt]

/-- Resolved step: a retryable failure with no attempts remaining
rethrows the last observed error. -/
theorem requestWithRetryGo_step_exhaust {α : Type} {retries retryDelay : Nat}
    {outcomes : Nat → Except SdkError α} {attempt fuel : Nat} {e : SdkError}
    (hout : outcomes attempt = Except.error e) (hnr : noRetry e = false)
    (hge : ¬ attempt < retries) :
    requestWithRetryGo retries retryDelay outcomes attempt (fuel + 1) =
      ⟨1, [], Except.error e⟩ := by
  rw [requestWithRetryGo_succ, hout]
  simp [hnr, hge]

/-- A persistent retryable error makes the loop run through all its
remaining fuel, sleeping the computed delay after every attempt but the
last one and surfacing the error at the end. -/
theorem requestWithRetryGo_const_error {α : Type} (retries retryDelay : Nat) (e : SdkError)
    (hnr : noRetry e = false) :
    ∀ f attempt, attempt + f = retries →
      requestWithRetryGo retries retryDelay (fun _ => (Except.error e : Except SdkError α))
          attempt (f + 1) =
        ⟨f + 1, (List.range f).map (fun i => delayFor retryDelay (attempt + i) e),
          Except.error e⟩ := by
  intro f
  induction f with
  | zero =>
    intro attempt h
    rw [requestWithRetryGo_step_exhaust rfl hnr (by omega)]
    simp
  | succ k ih =>
    intro attempt h
    have h2 : attempt < retries := by omega
    have ih2 := ih (attempt + 1) (by omega)
    have hrange : (List.range (k + 1)).map (fun i => delayFor retryDelay (attempt + i) e) =
        delayFor retryDelay attempt e ::
          (List.range k).map (fun i => delayFor retryDelay (attempt + 1 + i) e) := by
      rw [List.range_succ_eq_map, List.map_cons, List.map_map]
      refine congrArg₂ _ (by rw [Nat.add_zero]) ?_
      refine congrArg₂ _ (funext fun i => ?_) rfl
      show delayFor retryDelay (attempt + (i + 1)) e = delayFor retryDelay (attempt + 1 + i) e
      rw [show attempt + (i + 1) = attempt + 1 + i from by omega]
    rw [requestWithRetryGo_step_retry rfl hnr h2, ih2, hrange]

-- ===== Claims =====

/-- C1: the claim says an error outside the classified taxonomy is not
retried and propagates after exactly one attempt with no backoff sleep.
Counterexample: a plain programming error (not a Crawl4AIError) under
retries = 1 causes two attempts and one backoff sleep of 1000 ms. -/
theorem nonClassifiedErrorIsRetried_cex :
    requestWithRetry 1 1000
        (fun _ => (Except.error (SdkError.nonClassified "TypeError: undefined is not a function") :
          Except SdkError Nat)) =
      ⟨2, [1000],
        Except.error (SdkError.nonClassified "TypeError: undefined is not a function")⟩
    ∧ (2 : Nat) ≠ 1 ∧ ([(1000 : Int)] ≠ ([] : List Int)) :=
  ⟨rfl, by decide, by decide⟩

/-- C1 (amended): an error that is not a classified error of the taxonomy
never triggers the 4xx short-circuit; the coordinator treats it as
transient, retrying with the exponential backoff schedule up to the
configured bound and rethrowing the last occurrence only after retries + 1
attempts. -/
theorem nonClassifiedErrorsRetryLikeTransient (retries retryDelay : Nat) (msg : String) :
    noRetry (SdkError.nonClassified msg) = false
    ∧ requestWithRetry retries retryDelay
          (fun _ => (Except.error (SdkError.nonClassified msg) : Except SdkError Nat)) =
        ⟨retries + 1, expSleeps retryDelay retries,
          Except.error (SdkError.nonClassified msg)⟩ := by
  refine ⟨rfl, ?_⟩
  have h := requestWithRetryGo_const_error (α := Nat) retries retryDelay
    (SdkError.nonClassified msg) rfl retries 0 (by omega)
  rw [requestWithRetry, h]
  simp [expSleeps, delayFor]

/-- C3: with retries = 3, retryDelay = 1000 and every attempt failing with
HTTP 500, exactly 4 attempts occur with sleeps of 1000, 2000 and 4000 ms
and the last error is rethrown; with retries = 0 exactly one attempt is
made and no backoff sleep occurs, whatever the outcomes. -/
theorem retrySchedulePersistent500 :
    requestWithRetry 3 1000
        (fun _ => (Except.error (createHttpError 500 "Internal Server Error" none none []) :
          Except SdkError Nat)) =
      ⟨4, [1000, 2000, 4000],
        Except.error (createHttpError 500 "Internal Server Error" none none [])⟩
    ∧ ∀ (α : Type) (outcomes : Nat → Except SdkError α) (d : Nat),
        (requestWithRetry 0 d outcomes).attempts = 1
        ∧ (requestWithRetry 0 d outcomes).sleeps = [] := by
  refine ⟨rfl, ?_⟩
  intro α outcomes d
  rw [requestWithRetry]
  cases h : outcomes 0 with
  | ok v => rw [requestWithRetryGo_step_ok h]; exact ⟨rfl, rfl⟩
  | error e =>
    cases hnr : noRetry e with
    | true => rw [requestWithRetryGo_step_noretry h hnr]; exact ⟨rfl, rfl⟩
    | false =>
      rw [requestWithRetryGo_step_exhaust h hnr (by omega)]
      exact ⟨rfl, rfl⟩

/-- C5: a classified failure with a 4xx status other than 429 is rethrown
by the retry coordinator at once: one attempt, no backoff sleep. -/
theorem clientErrorsNotRetried (retries retryDelay : Nat)
    (outcomes : Nat → Except SdkError Nat) (e : SdkError) (s : Int)
    (h1 : outcomes 0 = Except.error e) (h2 : isCrawl4AIErr e = true)
    (h3 : errStatus e = some s) (h4 : 400 ≤ s) (h5 : s < 500) (h6 : s ≠ 429) :
    requestWithRetry retries retryDelay outcomes = ⟨1, [], Except.error e⟩ := by
  have hnr : noRetry e = true := by
    rw [noRetry, h2, h3]
    simp only [CLIENT_ERROR_MIN, CLIENT_ERROR_MAX, RATE_LIMIT_STATUS, Bool.true_and]
    simp only [Bool.and_eq_true, bne_iff_ne, ne_eq, decide_eq_true_eq]
    refine ⟨⟨⟨by omega, h4⟩, h5⟩, h6⟩
  rw [requestWithRetry]
  exact requestWithRetryGo_step_noretry h1 hnr

/-- C5 witness: a 404 failure on the first attempt, retries = 3. -/
theorem clientErrorsNotRetried_witness :
    requestWithRetry 3 1000
        (fun _ => (Except.error (createHttpError 404 "Not Found" none none []) :
          Except SdkError Nat)) =
      ⟨1, [], Except.error (createHttpError 404 "Not Found" none none [])⟩ :=
  clientErrorsNotRetried 3 1000 _ (createHttpError 404 "Not Found" none none []) 404
    rfl rfl rfl (by decide) (by decide) (by decide)

/-- C4: the claim says a RateLimit error with a known retry-after value of
R seconds always forces a delay of exactly R times 1000 ms. Counterexample:
a 429 response with a retry-after header of 0 seconds falls back to the
exponential delay of 1000 ms (the retryAfter field is falsy in the
JavaScript sense), not 0 ms. -/
theorem retryAfterZeroFallsBack_cex :
    createHttpError 429 "Too Many Requests" none none [("retry-after", "0")] =
      SdkError.rateLimit "HTTP 429: Too Many Requests" (some (JsNum.num 0)) none none
    ∧ (requestWithRetry 1 1000
          (fun _ => (Except.error (createHttpError 429 "Too Many Requests" none none
            [("retry-after", "0")]) : Except SdkError Nat))).sleeps = [1000]
    ∧ (1000 : Int) ≠ 0 * 1000 :=
  ⟨rfl, rfl, by decide⟩

/-- C4 (amended): for every retry-eligible failure at 0-based attempt a,
the backoff delay before the next attempt is retryDelay times 2 to the a,
except that a RateLimit failure whose retry-after value is known and
truthy (a number other than zero) overrides the schedule with exactly
retryAfter times 1000 ms. -/
theorem backoffDelaySchedule (retries retryDelay a fuel : Nat)
    (outcomes : Nat → Except SdkError Nat) (e : SdkError)
    (h1 : outcomes a = Except.error e) (h2 : noRetry e = false) (h3 : a < retries) :
    (requestWithRetryGo retries retryDelay outcomes a (fuel + 1)).sleeps.head? =
      some (delayFor retryDelay a e)
    ∧ delayFor retryDelay a e =
        (match rateLimitKnownRetryAfter e with
         | some r => r * 1000
         | none => (retryDelay : Int) * 2 ^ a) := by
  refine ⟨?_, ?_⟩
  · rw [requestWithRetryGo_step_retry h1 h2 h3]
    rfl
  · cases e with
    | rateLimit m ra lim rem =>
      cases ra with
      | none => simp [delayFor, rateLimitKnownRetryAfter, jsTruthyNum, RETRY_BACKOFF_MULTIPLIER]
      | some n =>
        cases n with
        | nan => simp [delayFor, rateLimitKnownRetryAfter, jsTruthyNum, RETRY_BACKOFF_MULTIPLIER]
        | num r =>
          by_cases hr : r = 0
          · simp [delayFor, rateLimitKnownRetryAfter, jsTruthyNum, hr, RETRY_BACKOFF_MULTIPLIER]
          · simp [delayFor, rateLimitKnownRetryAfter, jsTruthyNum, hr, RETRY_BACKOFF_MULTIPLIER]
    | generic m s st d => simp [delayFor, rateLimitKnownRetryAfter, RETRY_BACKOFF_MULTIPLIER]
    | network m => simp [delayFor, rateLimitKnownRetryAfter, RETRY_BACKOFF_MULTIPLIER]
    | timeout t u => simp [delayFor, rateLimitKnownRetryAfter, RETRY_BACKOFF_MULTIPLIER]
    | validation m f => simp [delayFor, rateLimitKnownRetryAfter, RETRY_BACKOFF_MULTIPLIER]
    | auth m s => simp [delayFor, rateLimitKnownRetryAfter, RETRY_BACKOFF_MULTIPLIER]
    | server m s st => simp [delayFor, rateLimitKnownRetryAfter, RETRY_BACKOFF_MULTIPLIER]
    | notFound r => simp [delayFor, rateLimitKnownRetryAfter, RETRY_BACKOFF_MULTIPLIER]
    | parseFail m => simp [delayFor, rateLimitKnownRetryAfter, RETRY_BACKOFF_MULTIPLIER]
    | nonClassified m => simp [delayFor, rateLimitKnownRetryAfter, RETRY_BACKOFF_MULTIPLIER]

/-- C4 witness: a 429 failure with retry-after 7 at attempt 0 sleeps
exactly 7000 ms before the next attempt. -/
theorem backoffDelaySchedule_witness :
    (requestWithRetry 1 1000
        (fun _ => (Except.error (createHttpError 429 "Too Many Requests" none none
          [("retry-after", "7")]) : Except SdkError Nat))).sleeps.head? = some 7000 := by
  have h := backoffDelaySchedule 1 1000 0 1
    (fun _ => (Except.error (createHttpError 429 "Too Many Requests" none none
      [("retry-after", "7")]) : Except SdkError Nat))
    (createHttpError 429 "Too Many Requests" none none [("retry-after", "7")])
    rfl rfl (by decide)
  rw [requestWithRetry, h.1]
  rfl

/-- C6: the claim says every status in the 5xx range maps to the Server
kind. Counterexample: 501 is not one of the switch cases 500, 502, 503,
504, so it falls to the Generic catch-all. -/
theorem createHttpError501Generic_cex :
    kindOf (createHttpError 501 "Not Implemented" none none []) = ErrKind.generic
    ∧ ErrKind.generic ≠ ErrKind.server :=
  ⟨rfl, by decide⟩

/-- C6 (amended): createHttpError is total and maps status to kind per
the table with Server restricted to 500, 502, 503 and 504: 400 to
Validation, 401 and 403 to Auth, 404 to NotFound, 429 to RateLimit with
retry-after parsed from the header when present, and every unmapped
status (including other 5xx such as 501) to Generic with status, status
text and body preserved. -/
theorem createHttpErrorKindMapping (status : Int) (statusText : String)
    (message : Option String) (data : Option Json) (headers : List (String × String)) :
    kindOf (createHttpError status statusText message data headers) = specKind status
    ∧ retryAfterOf (createHttpError 429 statusText message data headers) =
        parseNumHeader headers "retry-after"
    ∧ (specKind status = ErrKind.generic →
        createHttpError status statusText message data headers =
          SdkError.generic (httpErrorMessage status statusText message) (some status)
            (some statusText) data) := by
  refine ⟨?_, ?_, ?_⟩
  · unfold createHttpError specKind
    split_ifs <;> rfl
  · unfold createHttpError
    norm_num
    rfl
  · intro h
    unfold specKind at h
    unfold createHttpError
    split_ifs at h ⊢
    rfl

/-- C6 witness: an unmapped status (418) yields the Generic error with
status, status text and body preserved. -/
theorem createHttpErrorKindMapping_witness :
    kindOf (createHttpError 418 "Teapot" none (some (Json.str "short")) []) =
      specKind 418
    ∧ createHttpError 418 "Teapot" none (some (Json.str "short")) [] =
        SdkError.generic (httpErrorMessage 418 "Teapot" none) (some 418) (some "Teapot")
          (some (Json.str "short")) := by
  have h := createHttpErrorKindMapping 418 "Teapot" none (some (Json.str "short")) []
  exact ⟨h.1, h.2.2 rfl⟩

/-- C2: the claim says that with throwOnError = false a response failing
the status predicate makes request return the classified error object in
place of a success value. Counterexample: the code falls through to
`return responseData`, handing back the decoded body, not the error. -/
theorem throwOnErrorFalseReturnsBody_cex :
    handleResponse defaultValidateStatus false 500 "Internal Server Error" []
        (Json.str "oops") = Except.ok (RequestReturn.value (Json.str "oops"))
    ∧ Except.ok (RequestReturn.value (Json.str "oops")) ≠
        (Except.ok (RequestReturn.errObj (createHttpError 500 "Internal Server Error" none
          (some (Json.str "oops")) [])) : Except SdkError RequestReturn) := by
  refine ⟨rfl, fun h => ?_⟩
  injection h with h2
  exact RequestReturn.noConfusion h2

/-- C2 (amended): with throwOnError = false, a response failing the
status-validation predicate makes request return the decoded response
body; the classified error is built but discarded, so the collaborator
sees the raw body rather than a discriminable error object. -/
theorem throwOnErrorFalseReturnsDecodedBody (validate : Int → Bool) (status : Int)
    (statusText : String) (headers : List (String × String)) (body : Json)
    (h : validate status = false) :
    handleResponse validate false status statusText headers body =
      Except.ok (RequestReturn.value body) := by
  simp [handleResponse, h]

/-- C2 witness: a 500 response under the default status predicate with
throwing disabled returns the decoded body. -/
theorem throwOnErrorFalseReturnsDecodedBody_witness :
    handleResponse defaultValidateStatus false 500 "Internal Server Error"
        [("content-type", "application/json")] (Json.obj [("detail", Json.str "boom")]) =
      Except.ok (RequestReturn.value (Json.obj [("detail", Json.str "boom")])) :=
  throwOnErrorFalseReturnsDecodedBody defaultValidateStatus 500 "Internal Server Error"
    [("content-type", "application/json")] (Json.obj [("detail", Json.str "boom")]) rfl

/-- C7: the Response Normalizer implements exactly the spec's priority
rule, and the four reference examples evaluate as the spec states. -/
theorem normalizeMatchesSpecRule :
    (∀ v, normalizeArrayResponse v = specNormalize v)
    ∧ normalizeArrayResponse (Json.obj [("results", Json.arr [Json.num 1, Json.num 2])]) =
        Json.arr [Json.num 1, Json.num 2]
    ∧ normalizeArrayResponse (Json.obj [("result", Json.arr [Json.num 1, Json.num 2])]) =
        Json.arr [Json.num 1, Json.num 2]
    ∧ normalizeArrayResponse (Json.arr [Json.num 1, Json.num 2]) =
        Json.arr [Json.num 1, Json.num 2]
    ∧ normalizeArrayResponse (Json.obj [("foo", Json.num 1)]) =
        Json.arr [Json.obj [("foo", Json.num 1)]] := by
  refine ⟨?_, rfl, rfl, rfl, rfl⟩
  intro v
  cases v with
  | null => rfl
  | bool b => rfl
  | num n => rfl
  | str s => rfl
  | arr xs => rfl
  | obj fields =>
    simp only [normalizeArrayResponse, specNormalize, Json.isArr, isApiArrayResponse,
      hasKey, truthyArrayProp, propOf, Bool.false_eq_true, if_false]
    rcases hr : fields.find? (fun p => p.1 = "results") with _ | ⟨k1, v1⟩
    · rcases hr2 : fields.find? (fun p => p.1 = "result") with _ | ⟨k2, v2⟩
      · simp [hr, hr2]
      · cases v2 <;> simp [hr, hr2, Json.jsTruthy, Json.isArr]
    · cases v1 with
      | arr xs => simp [hr, Json.jsTruthy, Json.isArr]
      | null =>
        rcases hr2 : fields.find? (fun p => p.1 = "result") with _ | ⟨k2, v2⟩
        · simp [hr, hr2, Json.jsTruthy, Json.isArr]
        · cases v2 <;> simp [hr, hr2, Json.jsTruthy, Json.isArr]
      | bool b =>
        rcases hr2 : fields.find? (fun p => p.1 = "result") with _ | ⟨k2, v2⟩
        · simp [hr, hr2, Json.jsTruthy, Json.isArr]
        · cases v2 <;> simp [hr, hr2, Json.jsTruthy, Json.isArr]
      | num n =>
        rcases hr2 : fields.find? (fun p => p.1 = "result") with _ | ⟨k2, v2⟩
        · simp [hr, hr2, Json.jsTruthy, Json.isArr]
        · cases v2 <;> simp [hr, hr2, Json.jsTruthy, Json.isArr]
      | str s =>
        rcases hr2 : fields.find? (fun p => p.1 = "result") with _ | ⟨k2, v2⟩
        · simp [hr, hr2, Json.jsTruthy, Json.isArr]
        · cases v2 <;> simp [hr, hr2, Json.jsTruthy, Json.isArr]
      | obj fs2 =>
        rcases hr2 : fields.find? (fun p => p.1 = "result") with _ | ⟨k2, v2⟩
        · simp [hr, hr2, Json.jsTruthy, Json.isArr]
        · cases v2 <;> simp [hr, hr2, Json.jsTruthy, Json.isArr]

/-- C8: with no caller-supplied signal, the deadline timer aborts the very
signal handed to fetch, and the resulting AbortError is classified as a
TimeoutError carrying the effective timeout and the resolved URL — a
Timeout kind, not the generic Network kind. -/
theorem deadlineAbortYieldsTimeout (t : Int) (url : String) :
    requestSignalUsed false = deadlineAbortTarget
    ∧ fetchAborted false onlyDeadlineFired = true
    ∧ classifyCatch t url abortException = Caught.sdkErr (SdkError.timeout t (some url))
    ∧ kindOf (SdkError.timeout t (some url)) = ErrKind.timeout
    ∧ timeoutValueOf (SdkError.timeout t (some url)) = some t
    ∧ ErrKind.timeout ≠ ErrKind.network :=
  ⟨rfl, rfl, rfl, rfl, rfl, by decide⟩

/-- C10: with a caller-supplied signal, fetch listens to that signal
alone, so the deadline timer (which always aborts the internal
controller) never aborts the in-flight request; fetch is aborted exactly
when the external signal fires, and any such abort is classified as a
TimeoutError carrying the configured timeout value even though no
deadline expired. -/
theorem externalSignalAbortBehavior (t : Int) (url : String) (fired : Sig → Bool) :
    requestSignalUsed true ≠ deadlineAbortTarget
    ∧ fetchAborted true onlyDeadlineFired = false
    ∧ fetchAborted true fired = fired Sig.external
    ∧ classifyCatch t url abortException = Caught.sdkErr (SdkError.timeout t (some url)) :=
  ⟨by decide, rfl, rfl, rfl⟩

-- ===== Stream Decoder lemmas =====

theorem feedChunk_append (st : SSEState) (a b : List Char) :
    feedChunk st (a ++ b) = feedChunk (feedChunk st a) b := by
  simp [feedChunk, List.foldl_append]

theorem foldl_feedChunk_join :
    ∀ (chunks : List (List Char)) (st : SSEState),
      chunks.foldl feedChunk st = feedChunk st chunks.flatten := by
  intro chunks
  induction chunks with
  | nil => intro st; rfl
  | cons c cs ih =>
    intro st
    show cs.foldl feedChunk (feedChunk st c) = feedChunk st (c :: cs).flatten
    rw [ih, ← feedChunk_append]
    rfl

theorem applyField_unknown (b : EvBuilder) (f : List Char × List Char)
    (h1 : f.1 ≠ "data".data) (h2 : f.1 ≠ "event".data) (h3 : f.1 ≠ "id".data)
    (h4 : f.1 ≠ "retry".data) : applyField b f = b := by
  simp [applyField, h1, h2, h3, h4]

theorem foldFrameLines_dataLines :
    ∀ (lines : List (List Char)) (b : EvBuilder),
      (foldFrameLines b lines).dataLines = b.dataLines ++ dataValues lines := by
  intro lines
  induction lines with
  | nil => intro b; simp [foldFrameLines, dataValues]
  | cons l ls ih =>
    intro b
    cases hp : parseField l with
    | none =>
      rw [show foldFrameLines b (l :: ls) = foldFrameLines b ls from by
        simp [foldFrameLines, hp]]
      rw [ih]
      simp [dataValues, List.filterMap_cons, hp]
    | some f =>
      rw [show foldFrameLines b (l :: ls) = foldFrameLines (applyField b f) ls from by
        simp [foldFrameLines, hp]]
      rw [ih]
      by_cases hd : f.1 = "data".data
      · simp [applyField, hd, dataValues, List.filterMap_cons, hp]
      · have hkeep : (applyField b f).dataLines = b.dataLines := by
          rw [applyField]
          split_ifs <;> first | exact absurd (by assumption) hd | rfl
        rw [hkeep]
        simp [dataValues, List.filterMap_cons, hp, hd]

theorem foldFrameLines_middle (xs ys : List (List Char)) (l : List Char)
    (h : unknownFieldLine l = true) :
    ∀ b, foldFrameLines b (xs ++ l :: ys) = foldFrameLines b (xs ++ ys) := by
  induction xs with
  | nil =>
    intro b
    cases hp : parseField l with
    | none => simp [unknownFieldLine, hp] at h
    | some f =>
      have h2 := h
      rw [unknownFieldLine, hp] at h2
      simp only [Bool.and_eq_true, bne_iff_ne, ne_eq, decide_eq_true_eq] at h2
      rw [show (([] : List (List Char)) ++ l :: ys) = l :: ys from rfl,
        show foldFrameLines b (l :: ys) = foldFrameLines (applyField b f) ys from by
          simp [foldFrameLines, hp],
        applyField_unknown b f h2.1.1.1 h2.1.1.2 h2.1.2 h2.2]
      rfl
  | cons x xs ih =>
    intro b
    show foldFrameLines b (x :: (xs ++ l :: ys)) = foldFrameLines b (x :: (xs ++ ys))
    cases hp : parseField x with
    | none =>
      have hstep : ∀ zs, foldFrameLines b (x :: zs) = foldFrameLines b zs := fun zs => by
        simp [foldFrameLines, hp]
      rw [hstep (xs ++ l :: ys), hstep (xs ++ ys)]
      exact ih b
    | some f =>
      have hstep : ∀ zs, foldFrameLines b (x :: zs) = foldFrameLines (applyField b f) zs :=
        fun zs => by simp [foldFrameLines, hp]
      rw [hstep (xs ++ l :: ys), hstep (xs ++ ys)]
      exact ih (applyField b f)

/-- C9: the Stream Decoder is chunk-boundary invariant — decoding any
split of the input into chunks yields the same event sequence as decoding
the unsplit text; within one frame the data line values are joined with
exactly one line break in their original order; and a line with an
unrecognized field name contributes nothing to the frame's event. -/
theorem sseDecoderProperties :
    (∀ chunks : List (List Char), sseDecodeChunks chunks = sseDecodeChunks [chunks.flatten])
    ∧ (∀ lines, (mkEvent lines).data = joinNL (dataValues lines))
    ∧ (∀ xs ys l, unknownFieldLine l = true →
        mkEvent (xs ++ l :: ys) = mkEvent (xs ++ ys)) := by
  refine ⟨?_, ?_, ?_⟩
  · intro chunks
    rw [sseDecodeChunks, sseDecodeChunks, foldl_feedChunk_join]
    rfl
  · intro lines
    show joinNL (foldFrameLines emptyBuilder lines).dataLines = _
    rw [foldFrameLines_dataLines]
    rfl
  · intro xs ys l h
    rw [mkEvent, mkEvent, foldFrameLines_middle xs ys l h]

/-- C9 witness: a concrete mid-frame chunk split, a frame with two data
lines, and an unknown field line that leaves the event unchanged. -/
theorem sseDecoderProperties_witness :
    sseDecodeChunks ["data: a\nda".data, "ta: b\n\n".data] =
      sseDecodeChunks [List.flatten ["data: a\nda".data, "ta: b\n\n".data]]
    ∧ (mkEvent ["data: x".data, "data: y".data]).data =
        joinNL (dataValues ["data: x".data, "data: y".data])
    ∧ unknownFieldLine "foo: bar".data = true
    ∧ mkEvent (["data: a".data] ++ "foo: bar".data :: []) =
        mkEvent (["data: a".data] ++ []) :=
  ⟨sseDecoderProperties.1 _, sseDecoderProperties.2.1 _, by decide,
    sseDecoderProperties.2.2 _ _ _ (by decide)⟩

end Crawl4AI
